import Mathlib

/-!
# Verification of the 3D-building conversion pipeline orchestrator

Shallow embedding of `src/main.py` (class `ProcessingGUI`) and
`src/func/decimate/decimate.py` of the `converter-docker` repository.

The orchestrator scans a data folder for work units (directories holding a
mesh `.obj`, a footprint `.geojson` and a coordinate `.txt` file), generates
one bash script per unit (`create_shell_script`), and runs the scripts
sequentially in a worker thread (`run_processing`), streaming output lines
and supporting cooperative cancellation (`stop_processing`).

Filesystem state is modelled explicitly: a directory listing is a list of
entries, a directory's content is its list of file names, and the generated
bash script is a list of structured commands executed by a sequential
interpreter that mirrors bash's semantics for a script with no `set -e`
(every command runs regardless of the previous command's exit status;
the script's exit status is that of its last executed command).
-/

namespace Converter

/-- One entry of `Path.iterdir()` on the data folder: its name, whether it is
a directory, and (for directories) the file names it contains. -/
structure Entry where
  name : String
  isDir : Bool
  files : List String
  deriving DecidableEq, Repr

/-- Tests whether the string `s` ends with `t` (character-level suffix). -/
def strEndsWith (s t : String) : Bool :=
  t.data.isSuffixOf s.data

/-- Tests whether the string `s` starts with `t` (character-level). -/
def strStartsWith (s t : String) : Bool :=
  t.data.isPrefixOf s.data

/-- Lower-cases a string character by character, as `str.lower()` does for
ASCII names. -/
def strToLower (s : String) : String :=
  String.mk (s.data.map Char.toLower)

/-- Strict lexicographic order on names (by character code), the order
`sorted` or `<` on Python strings induces for ASCII names. -/
def charListLt : List Char → List Char → Bool
  | [], [] => false
  | [], _ :: _ => true
  | _ :: _, [] => false
  | a :: as, b :: bs =>
      if a < b then true else if b < a then false else charListLt as bs

/-- Reflexive name order derived from `charListLt`. -/
def nameLe (a b : String) : Bool :=
  !charListLt b.data a.data

/-- Embeds `pathlib.Path.glob ("*" ++ ext)` over a list of file names: matches names
ending in `ext`; a `*` pattern does not match hidden files (leading dot). -/
def globExt (ext : String) (files : List String) : List String :=
  files.filter (fun f => strEndsWith f ext && !strStartsWith f ".")

/-- Embeds `ProcessingGUI.has_required_files`: the folder holds at least one `.obj`,
one `.geojson` and one `.txt` file (src/main.py lines 159-165). -/
def has_required_files (files : List String) : Bool :=
  (globExt ".obj" files).length > 0 &&
    (globExt ".geojson" files).length > 0 &&
    (globExt ".txt" files).length > 0

/-- Embeds `ProcessingGUI.get_processing_folders` (src/main.py lines 167-185).
`dataFolderSet` models `self.data_folder.get()` being non-empty;
`batchMode` models `self.batch_mode.get()`; `root` is the data folder
itself and `entries` the result of `data_path.iterdir()` in the order the
operating system enumerates it. Batch mode keeps the subdirectories that
have the required files; single mode keeps the root itself if it does. -/
def get_processing_folders (dataFolderSet batchMode : Bool)
    (root : Entry) (entries : List Entry) : List Entry :=
  if !dataFolderSet then []
  else if batchMode then
    entries.filter (fun e => e.isDir && has_required_files e.files)
  else if has_required_files root.files then [root] else []

/-- Count of mesh (`.obj`) files a directory content offers to the glob. -/
def countMesh (files : List String) : Nat :=
  files.countP (fun f => strEndsWith f ".obj" && !strStartsWith f ".")

/-- Count of footprint (`.geojson`) files. -/
def countFootprint (files : List String) : Nat :=
  files.countP (fun f => strEndsWith f ".geojson" && !strStartsWith f ".")

/-- Count of coordinate-text (`.txt`) files. -/
def countText (files : List String) : Nat :=
  files.countP (fun f => strEndsWith f ".txt" && !strStartsWith f ".")

/-! ## Execution plan builder: `create_shell_script` (src/main.py 218-330)

The Python function globs the three required file kinds, raises `ValueError`
when any glob is empty, picks the first match of each, and returns the text
of a bash script. It performs no other filesystem access and launches no
process; the returned script is modelled structurally as a parameter record
plus the fixed command list `scriptOf` below. -/

/-- The bound parameters of one unit's generated script: the selected input
files, the DTM path, the output folder and the subgrid prefix
(`folder_path.name`). -/
structure ScriptParams where
  txtFile : String
  objFile : String
  geojsonFile : String
  dtm : String
  outputPath : List String
  subgrid : String
  deriving DecidableEq, Repr

/-- A filesystem operation the plan builder could perform. Tracing
`create_shell_script`, the only filesystem access in its body is the three
read-only globs; it contains no `os.makedirs`, no file write and no
subprocess call. -/
inductive FsOp where
  | readGlob (pattern : String)
  | mkdirOp (path : List String)
  | writeFileOp (path : String)
  | launch (program : String)
  deriving DecidableEq, Repr

/-- Embeds `ProcessingGUI.create_shell_script folder_path subgrid_prefix`: fails
with `ValueError ("Missing required files ...")` when a glob is empty,
otherwise binds the first match of each kind (src/main.py 222-232). -/
def create_shell_script (folder : Entry) (dtmPath : String)
    (outputFolder : List String) : Except String ScriptParams :=
  match globExt ".obj" folder.files, globExt ".geojson" folder.files,
      globExt ".txt" folder.files with
  | objFile :: _, geojsonFile :: _, txtFile :: _ =>
      Except.ok
        { txtFile := txtFile, objFile := objFile, geojsonFile := geojsonFile
          dtm := dtmPath, outputPath := outputFolder
          subgrid := folder.name }
  | _, _, _ => Except.error "Missing required files"

/-- The filesystem operations executed while `create_shell_script` runs:
only the three globs (read-only). -/
def create_shell_script_fsOps (folder : Entry) : List FsOp :=
  let _ := folder
  [FsOp.readGlob "*.obj", FsOp.readGlob "*.geojson", FsOp.readGlob "*.txt"]

/-- One command of the generated bash script. `assignX`/`assignY` are the
command substitutions `X=$(sed -n '1p' "$TXT" | tr -d '\r')` and
`Y=$(sed -n '2p' "$TXT" | tr -d '\r')`; `mkdirCmd` is `mkdir -p`;
`stageCmd i tool args` is the i-th external stage invocation (0-based). -/
inductive ScriptCmd where
  | assignX
  | assignY
  | mkdirCmd (path : List String)
  | echoCmd (msg : String)
  | stageCmd (idx : Nat) (tool : String) (args : List String)
  deriving DecidableEq, Repr

/-- Embeds `tr -d '\r'`: delete every carriage-return character. -/
def stripCR (s : String) : String :=
  String.mk (s.data.filter (fun c => c ≠ '\r'))

/-- Embeds `sed -n 'Np' file`: the N-th line (1-based), empty output when the file
has fewer lines. -/
def sedLine (n : Nat) (lines : List String) : String :=
  (lines.get? (n - 1)).getD ""

/-- The six per-stage working directories of a unit, in declaration order of
the script variables `out_separate .. out_citygml`: all live under
`temp/$SUBGRID_PREFIX/`. Paths are component lists (a unit name coming from
`folder_path.name` is a single component). -/
def stageDirNames : List String :=
  ["separate", "decimate", "translate", "split", "elevate", "citygml"]

/-- Path `temp/$SUBGRID_PREFIX/<stage>` as a component path. -/
def tempDir (prefixName stage : String) : List String :=
  ["temp", prefixName, stage]

/-- The command list of the generated script, in the order the script text
lays them out (src/main.py 235-328): the X/Y extraction, the seven
`mkdir -p` commands, three echoes, then for each of the seven stages an
echo followed by the external invocation; a final completion echo. The
output folder `outputPath` is carried as a component-list path. -/
def scriptOf (p : ScriptParams) : List ScriptCmd :=
  [ScriptCmd.assignX, ScriptCmd.assignY] ++
  ((stageDirNames.map (fun s => ScriptCmd.mkdirCmd (tempDir p.subgrid s))) ++
    [ScriptCmd.mkdirCmd (p.outputPath ++ [p.subgrid])]) ++
  [ScriptCmd.echoCmd ("Processing " ++ p.subgrid ++ "..."),
   ScriptCmd.echoCmd "X coordinate: $X",
   ScriptCmd.echoCmd "Y coordinate: $Y",
   ScriptCmd.echoCmd "Step 1: Separation...",
   ScriptCmd.stageCmd 0 "go run func/separator/objseparator.go"
     ["-cx=$X", "-cy=$Y", p.objFile, p.geojsonFile, "$out_separate"],
   ScriptCmd.echoCmd "Step 2: Decimation...",
   ScriptCmd.stageCmd 1 "python func/decimate/decimate.py"
     ["-i", "$out_separate", "-o", "$out_decimate", "-a", "25"],
   ScriptCmd.echoCmd "Step 3: Translation...",
   ScriptCmd.stageCmd 2 "go run func/translate/translate.go"
     ["-input=$out_decimate", "-output=$out_translate", "-tx=$X", "-ty=$Y",
      "-tz=0"],
   ScriptCmd.echoCmd "Step 4: Elevation...",
   ScriptCmd.stageCmd 3 "go run func/elevate/elevate.go"
     ["--input", "$out_translate", "--output", "$out_elevate", "--dtm",
      p.dtm],
   ScriptCmd.echoCmd "Step 5: Semantic mapping...",
   ScriptCmd.stageCmd 4 "go run func/semantic/semantic-mapping.go"
     ["--obj-dir", "$out_elevate", "--geojson", p.geojsonFile, "--output",
      "$out_semantic"],
   ScriptCmd.echoCmd "Step 6: Convert to CityGML...",
   ScriptCmd.stageCmd 5 "go run func/building-lod2/to-citygml-lod2.go"
     ["-input", "$out_semantic", "-output", "$out_citygml"],
   ScriptCmd.echoCmd "Step 7: Merge CityGML...",
   ScriptCmd.stageCmd 6 "go run func/merge-citygml/merge-building-lod2.go"
     ["--input", "$out_citygml", "--output", "$final_output_citygml"],
   ScriptCmd.echoCmd ("Processing completed for " ++ p.subgrid)]

/-- State of one script execution: the stage indices started so far (in
start order), the directories created, the values of the X and Y shell
variables, and the exit status of the most recent command. -/
structure ScriptState where
  started : List Nat
  dirsMade : List (List String)
  varX : String
  varY : String
  lastExit : Int
  deriving DecidableEq, Repr

/-- Initial script state. -/
def initState : ScriptState :=
  { started := [], dirsMade := [], varX := "", varY := "", lastExit := 0 }

/-- Run-time environment of a script: the lines of the unit's coordinate
`.txt` file and the exit code each external stage returns. -/
structure ScriptEnv where
  txtLines : List String
  stageExit : Nat → Int

/-- Effect of one script command on the state. The script has no `set -e`
and no exit-status test, so every command simply updates the state and the
interpreter continues with the next command; the assignments, `mkdir -p`
and `echo` commands succeed (exit 0). -/
def applyCmd (env : ScriptEnv) (st : ScriptState) : ScriptCmd → ScriptState
  | ScriptCmd.assignX =>
      { st with varX := stripCR (sedLine 1 env.txtLines), lastExit := 0 }
  | ScriptCmd.assignY =>
      { st with varY := stripCR (sedLine 2 env.txtLines), lastExit := 0 }
  | ScriptCmd.mkdirCmd p =>
      { st with dirsMade := st.dirsMade ++ [p], lastExit := 0 }
  | ScriptCmd.echoCmd _ => { st with lastExit := 0 }
  | ScriptCmd.stageCmd i _ _ =>
      { st with started := st.started ++ [i], lastExit := env.stageExit i }

/-- Sequential execution of the script's commands. `cancelAt = some s`
models the cancellation flag being set while stage `s` is running: the
orchestrator's `stop_processing` terminates the bash process, so stage `s`
is the last command the script executes; `cancelAt = none` runs the whole
script. Bash runs each command unconditionally (no `set -e`). -/
def runCmds (env : ScriptEnv) (cancelAt : Option Nat) :
    List ScriptCmd → ScriptState → ScriptState
  | [], st => st
  | c :: rest, st =>
      let st2 := applyCmd env st c
      match c, cancelAt with
      | ScriptCmd.stageCmd i _ _, some s =>
          if i = s then st2 else runCmds env cancelAt rest st2
      | _, _ => runCmds env cancelAt rest st2

/-- Full run of one unit's generated script. -/
def execScript (p : ScriptParams) (env : ScriptEnv)
    (cancelAt : Option Nat) : ScriptState :=
  runCmds env cancelAt (scriptOf p) initState

/-! ## Batch controller: `run_processing` (src/main.py 332-413) and
`stop_processing` (src/main.py 431-439)

The worker thread iterates the processing folders; at the top of each
iteration it checks `self.processing` and breaks when the flag was cleared.
Per folder it builds the script (an exception is caught, logged, and the
loop continues with the next folder), runs it under bash, forwards output
lines while the flag holds, waits for the process, and logs the outcome by
return code. `stop_processing` clears the flag and calls
`self.process.terminate()`, which kills the bash process so that no further
command of the current script runs. -/

/-- The outcome the worker logs for one folder: `planError` for the caught
exception from `create_shell_script` (line 396-397), `finished c` for a
script that ran to completion with return code `c` (lines 385-388, `✓` when
`c = 0`, `✗` otherwise), `terminated` for a script killed mid-run by
cancellation. -/
inductive UnitOutcome where
  | planError
  | finished (code : Int)
  | terminated
  deriving DecidableEq, Repr

/-- When cancellation happens in a batch run: `never`, or the flag is set
while unit `k` (0-based) is running stage `s` of its script. -/
inductive Cancel where
  | never
  | during (k s : Nat)
  deriving DecidableEq, Repr

/-- Processing of one folder by the loop body: build the script, then run
it (to completion, or up to stage `cancelAt` when the batch is cancelled
there). -/
def unitOutcome (folder : Entry) (dtmPath : String) (outRoot : List String)
    (env : ScriptEnv) (cancelAt : Option Nat) : UnitOutcome :=
  match create_shell_script folder dtmPath outRoot with
  | Except.error _ => UnitOutcome.planError
  | Except.ok p =>
      match cancelAt with
      | none => UnitOutcome.finished (execScript p env none).lastExit
      | some _ => UnitOutcome.terminated

/-- The worker loop from unit index `i` on. In the `Cancel.during k s`
scenario the flag is still set when units `≤ k` pass the loop-top check
(the flag is only cleared during unit `k`'s stage `s`), unit `k`'s script
is cut off at stage `s`, and the check at the top of iteration `k + 1`
observes the cleared flag and breaks. -/
def runUnitsFrom (dtmPath : String) (outRoot : List String)
    (uenv : Nat → ScriptEnv) (c : Cancel) :
    Nat → List Entry → List (String × UnitOutcome)
  | _, [] => []
  | i, u :: rest =>
      match c with
      | Cancel.never =>
          (u.name, unitOutcome u dtmPath outRoot (uenv i) none) ::
            runUnitsFrom dtmPath outRoot uenv c (i + 1) rest
      | Cancel.during k s =>
          if k < i then []
          else
            (u.name,
                unitOutcome u dtmPath outRoot (uenv i)
                  (if i = k then some s else none)) ::
              runUnitsFrom dtmPath outRoot uenv c (i + 1) rest

/-- Embeds `ProcessingGUI.run_processing`: the recorded per-unit outcomes
of one batch run, in processing order. `uenv i` gives unit `i`'s run-time
environment (coordinate-file lines and stage exit codes). -/
def run_processing (units : List Entry) (dtmPath : String)
    (outRoot : List String) (uenv : Nat → ScriptEnv) (c : Cancel) :
    List (String × UnitOutcome) :=
  runUnitsFrom dtmPath outRoot uenv c 0 units

/-- The stage indices of unit `i`'s script that a batch run starts: none
when the unit's plan building fails or the unit is never reached, otherwise
those of its (possibly cut-off) script run. -/
def unit_stages_started (units : List Entry) (dtmPath : String)
    (outRoot : List String) (uenv : Nat → ScriptEnv) (c : Cancel)
    (i : Nat) : List Nat :=
  if h : i < units.length then
    match create_shell_script (units.get ⟨i, h⟩) dtmPath outRoot with
    | Except.error _ => []
    | Except.ok p =>
        match c with
        | Cancel.never => (execScript p (uenv i) none).started
        | Cancel.during k s =>
            if k < i then []
            else (execScript p (uenv i)
                (if i = k then some s else none)).started
  else []

/-! ## The decimation tool: `src/func/decimate/decimate.py`

Its `main` exits with status 1 when the input directory does not exist or
when the recursive search finds no `.obj` file; otherwise it processes each
found file, counting (and only printing) per-file successes and failures,
and falls off the end of `main`, exiting with status 0. -/

/-- Embeds `find_obj_files` (decimate.py 124-134): the files under the input
directory whose lower-cased name ends in `.obj`, sorted. `files` lists the
paths `os.walk` reaches. -/
def find_obj_files (files : List String) : List String :=
  (files.filter (fun f => strEndsWith (strToLower f) ".obj")).mergeSort
    (fun a b => a ≤ b)

/-- Result of one run of the decimation tool: its exit status and how many
files `process_obj_file` reported as successful. -/
structure DecimateResult where
  exitCode : Nat
  successCount : Nat
  deriving DecidableEq, Repr

/-- Embeds `main` of decimate.py (lines 136-211): exit 1 when the input
directory is missing (line 169-171) or no OBJ file is found (179-181);
otherwise process every file — `processOk f` tells whether
`process_obj_file` succeeds on `f` — and exit 0 regardless of the
per-file outcomes. -/
def decimate_main (inputDirExists : Bool) (files : List String)
    (processOk : String → Bool) : DecimateResult :=
  if !inputDirExists then { exitCode := 1, successCount := 0 }
  else
    let objs := find_obj_files files
    if objs.isEmpty then { exitCode := 1, successCount := 0 }
    else { exitCode := 0, successCount := (objs.filter processOk).length }

/-! ## Directory layout of one unit

All paths one unit's script writes under: the six `temp/<unit>/<stage>`
working directories, the output directory `<outputRoot>/<unit>` and the
final artifact `<outputRoot>/<unit>/<unit>.gml`, as component paths. -/

/-- The paths belonging to the unit named `n` (component lists): its six
working directories, its output directory and its final CityGML file. -/
def unitPaths (outRoot : List String) (n : String) : List (List String) :=
  [tempDir n "separate", tempDir n "decimate", tempDir n "translate",
   tempDir n "split", tempDir n "elevate", tempDir n "citygml",
   outRoot ++ [n], outRoot ++ [n, n ++ ".gml"]]

/-- Recognises the read-only operations among `FsOp`. -/
def isReadOnlyOp : FsOp → Bool
  | FsOp.readGlob _ => true
  | _ => false

/-! ## Concrete fixtures used by counterexamples and witnesses -/

/-- A directory content with exactly the three required files. -/
def qualFiles : List String :=
  ["m.obj", "f.geojson", "c.txt"]

/-- A data-folder root entry (its own files are irrelevant in batch mode). -/
def rootEntry : Entry :=
  { name := "data", isDir := true, files := [] }

/-- A qualifying work-unit folder named `A`. -/
def folderA : Entry :=
  { name := "A", isDir := true, files := qualFiles }

/-- A qualifying work-unit folder named `B`. -/
def folderB : Entry :=
  { name := "B", isDir := true, files := qualFiles }

/-- A folder named `C` missing the footprint file: it does not qualify. -/
def folderC : Entry :=
  { name := "C", isDir := true, files := ["m.obj", "c.txt"] }

/-- The script parameters `create_shell_script` binds for `folderA` with
DTM `d.tif` and output folder `out`. -/
def paramsA : ScriptParams :=
  { txtFile := "c.txt", objFile := "m.obj", geojsonFile := "f.geojson"
    dtm := "d.tif", outputPath := ["out"], subgrid := "A" }

/-- A run-time environment where stage 0 (separation) exits with code 1 and
every other stage exits 0. -/
def failEnv : ScriptEnv :=
  { txtLines := ["1.0", "2.0"], stageExit := fun i => if i = 0 then 1 else 0 }

/-- A run-time environment whose coordinate file has a single line. -/
def oneLineEnv : ScriptEnv :=
  { txtLines := ["12345.6"], stageExit := fun _ => 0 }

/-! ## Helper lemmas -/

/-- A complete, uncancelled script run starts all seven stages, in the
declared order. -/
theorem execScript_none_started (p : ScriptParams) (env : ScriptEnv) :
    (execScript p env none).started = [0, 1, 2, 3, 4, 5, 6] := rfl

/-- A complete script run exits with the status of its final `echo`: 0. -/
theorem execScript_none_lastExit (p : ScriptParams) (env : ScriptEnv) :
    (execScript p env none).lastExit = 0 := rfl

/-- A script run cut off while stage `s` runs has started exactly stages
`0 .. s`. -/
theorem execScript_cancel_started (p : ScriptParams) (env : ScriptEnv)
    (s : Nat) (h : s < 7) :
    (execScript p env (some s)).started = List.range (s + 1) := by
  interval_cases s <;> rfl

/-- Qualification is equivalent to the three counts being positive. -/
theorem has_required_files_iff (files : List String) :
    has_required_files files = true ↔
      1 ≤ countMesh files ∧ 1 ≤ countFootprint files ∧ 1 ≤ countText files := by
  simp [has_required_files, countMesh, countFootprint, countText, globExt,
    List.countP_eq_length_filter, Nat.succ_le_iff, and_assoc]

/-- Batch membership in the processing list is qualification. -/
theorem mem_get_processing_folders_batch (root : Entry)
    (entries : List Entry) (e : Entry) :
    e ∈ get_processing_folders true true root entries ↔
      e ∈ entries ∧ e.isDir = true ∧ has_required_files e.files = true := by
  simp [get_processing_folders, List.mem_filter, and_assoc]

/-- A folder that made it into the processing list has the required files. -/
theorem has_required_of_mem (dataFolderSet batchMode : Bool) (root : Entry)
    (entries : List Entry) (folder : Entry)
    (hmem : folder ∈ get_processing_folders dataFolderSet batchMode root
      entries) :
    has_required_files folder.files = true := by
  unfold get_processing_folders at hmem
  cases dataFolderSet with
  | false => simp at hmem
  | true =>
      cases batchMode with
      | true =>
          simp [List.mem_filter] at hmem
          exact hmem.2.2
      | false =>
          by_cases hroot : has_required_files root.files = true
          · simp [hroot] at hmem
            subst hmem
            exact hroot
          · simp [hroot] at hmem

/-- Uncancelled batch runs record one outcome per folder, in order. -/
theorem runUnitsFrom_never_names (dtmPath : String) (outRoot : List String)
    (uenv : Nat → ScriptEnv) :
    ∀ (units : List Entry) (i : Nat),
      (runUnitsFrom dtmPath outRoot uenv Cancel.never i units).map Prod.fst
        = units.map Entry.name
  | [], _ => rfl
  | _ :: rest, i => by
      simp only [runUnitsFrom, List.map_cons, List.map]
      exact congrArg _ (runUnitsFrom_never_names dtmPath outRoot uenv rest
        (i + 1))

/-- After the cancellation point, the batch loop starts no unit. -/
theorem runUnitsFrom_during_past (dtmPath : String) (outRoot : List String)
    (uenv : Nat → ScriptEnv) (k s i : Nat) (units : List Entry)
    (h : k < i) :
    runUnitsFrom dtmPath outRoot uenv (Cancel.during k s) i units = [] := by
  cases units with
  | nil => rfl
  | cons u rest => simp [runUnitsFrom, h]

/-- A batch cancelled during unit `k` records outcomes exactly for the
units up to and including `k`. -/
theorem runUnitsFrom_during_names (dtmPath : String) (outRoot : List String)
    (uenv : Nat → ScriptEnv) (k s : Nat) :
    ∀ (units : List Entry) (i : Nat), i ≤ k →
      (runUnitsFrom dtmPath outRoot uenv (Cancel.during k s) i units).map
          Prod.fst
        = (units.take (k + 1 - i)).map Entry.name := by
  intro units
  induction units with
  | nil => intro i _; simp [runUnitsFrom]
  | cons u rest ih =>
      intro i hi
      have hnot : ¬ k < i := Nat.not_lt.mpr hi
      rcases Nat.lt_or_ge i k with hik | hik
      · have htake : k + 1 - i = (k + 1 - (i + 1)) + 1 := by omega
        simp only [runUnitsFrom, hnot, if_false, List.map_cons, htake,
          List.take_succ_cons, List.map]
        exact congrArg _ (ih (i + 1) (by omega))
      · have hik' : i = k := Nat.le_antisymm hi hik
        subst hik'
        have htake : i + 1 - i = 1 := by omega
        simp [runUnitsFrom, hnot, htake,
          runUnitsFrom_during_past dtmPath outRoot uenv i s (i + 1) rest
            (by omega)]

/-- A working directory `temp/<a>/<s>` never equals an output directory
`<outRoot>/<b>` when the output root does not start with `temp`. -/
theorem tempDir_ne_outDir (outRoot : List String)
    (hroot : outRoot.head? ≠ some "temp") (a s b : String) :
    tempDir a s ≠ outRoot ++ [b] := by
  cases outRoot with
  | nil => simp [tempDir]
  | cons h t =>
      intro he
      rw [List.cons_append] at he
      rw [tempDir, List.cons.injEq] at he
      exact hroot (by simp [he.1.symm])

/-- A working directory `temp/<a>/<s>` never equals a final artifact path
`<outRoot>/<b>/<c>` when the output root does not start with `temp`. -/
theorem tempDir_ne_outFile (outRoot : List String)
    (hroot : outRoot.head? ≠ some "temp") (a s b c : String) :
    tempDir a s ≠ outRoot ++ [b, c] := by
  cases outRoot with
  | nil => simp [tempDir]
  | cons h t =>
      intro he
      rw [List.cons_append] at he
      rw [tempDir, List.cons.injEq] at he
      exact hroot (by simp [he.1.symm])

/-- The recursive OBJ search comes up empty exactly when no file under the
input directory has a name whose lower-cased form ends in `.obj`. -/
theorem find_obj_files_eq_nil (files : List String) :
    find_obj_files files = [] ↔
      ∀ f ∈ files, ¬ strEndsWith (strToLower f) ".obj" = true := by
  unfold find_obj_files
  constructor
  · intro h f hf hobj
    have hperm := List.mergeSort_perm
      (files.filter (fun f => strEndsWith (strToLower f) ".obj"))
      (fun a b => a ≤ b)
    rw [h] at hperm
    have := (List.Perm.nil_eq hperm).symm
    rw [List.filter_eq_nil_iff] at this
    exact this f hf hobj
  · intro h
    have hfil : files.filter (fun f => strEndsWith (strToLower f) ".obj")
        = [] := List.filter_eq_nil_iff.mpr h
    rw [hfil, List.mergeSort_nil]

/-! ## Claims -/

/-- **C1, counterexample.** Run the generated script with stage 0
(separation) exiting with code 1 and every later stage exiting 0: the claim
says no stage after stage 0 may start and the unit's result must be that
failure — but the script still starts stage 1 (and all later stages), and
its recorded result, the exit status of its last command (the closing
`echo`), is 0. -/
theorem c1_counterexample :
    failEnv.stageExit 0 = 1 ∧
      1 ∈ (execScript paramsA failEnv none).started ∧
      6 ∈ (execScript paramsA failEnv none).started ∧
      (execScript paramsA failEnv none).lastExit = 0 :=
  ⟨rfl, by decide, by decide, rfl⟩

/-- **C1, amended.** Stages start strictly in the declared order
`0, 1, .., 6`, and stage `N + 1` starts only after stage `N` has run — but
the script (which has no `set -e` and never tests an exit status) runs
every stage regardless of the outcomes of earlier stages, and the unit's
recorded result is the exit status of the script's final `echo`, 0,
whatever the stages returned. -/
theorem c1_stages_always_run (p : ScriptParams) (env : ScriptEnv) :
    (execScript p env none).started = [0, 1, 2, 3, 4, 5, 6] ∧
      (execScript p env none).lastExit = 0 :=
  ⟨execScript_none_started p env, execScript_none_lastExit p env⟩

/-- **C2, counterexample.** A unit whose coordinate file has a single line:
the claim says plan building must fail with `MalformedCoordinateFile`
before any stage runs — but `create_shell_script` succeeds without reading
the file, stage 0 still starts, and the shell variable `Y` is bound to the
empty string. -/
theorem c2_counterexample :
    oneLineEnv.txtLines = ["12345.6"] ∧
      create_shell_script folderA "d.tif" ["out"] = Except.ok paramsA ∧
      0 ∈ (execScript paramsA oneLineEnv none).started ∧
      (execScript paramsA oneLineEnv none).varX = "12345.6" ∧
      (execScript paramsA oneLineEnv none).varY = "" :=
  ⟨rfl, rfl, by decide, by decide, rfl⟩

/-- **C2, amended.** Plan building never reads the coordinate file — its
only possible failure is the missing-required-files `ValueError`. The
generated script extracts `X` from line 1 and `Y` from line 2 of the file
(with every carriage return stripped) before any stage runs, but performs
no numeric validation and never fails: a missing line simply yields the
empty string. -/
theorem c2_coordinate_extraction (p : ScriptParams) (env : ScriptEnv)
    (folder : Entry) (dtmPath : String) (outRoot : List String) :
    (execScript p env (some 0)).varX = stripCR (sedLine 1 env.txtLines) ∧
      (execScript p env (some 0)).varY = stripCR (sedLine 2 env.txtLines) ∧
      (execScript p env none).varX = stripCR (sedLine 1 env.txtLines) ∧
      (execScript p env none).varY = stripCR (sedLine 2 env.txtLines) ∧
      ((create_shell_script folder dtmPath outRoot).isOk = true ∨
        create_shell_script folder dtmPath outRoot =
          Except.error "Missing required files") := by
  refine ⟨rfl, rfl, rfl, rfl, ?_⟩
  unfold create_shell_script
  cases hobj : globExt ".obj" folder.files <;>
    cases hgeo : globExt ".geojson" folder.files <;>
      cases htxt : globExt ".txt" folder.files <;> simp [Except.isOk, Except.toBool]

/-- **C3.** A directory qualifies as a work unit exactly when it holds at
least one mesh (`.obj`), one footprint (`.geojson`) and one coordinate-text
(`.txt`) file, and in batch mode a subdirectory is in the processing list
exactly when it qualifies — a non-qualifying one is silently absent, never
an error. -/
theorem c3_qualification (files : List String) (root : Entry)
    (entries : List Entry) (e : Entry) :
    (has_required_files files = true ↔
      1 ≤ countMesh files ∧ 1 ≤ countFootprint files ∧
        1 ≤ countText files) ∧
    (e ∈ get_processing_folders true true root entries ↔
      e ∈ entries ∧ e.isDir = true ∧ has_required_files e.files = true) :=
  ⟨has_required_files_iff files,
    mem_get_processing_folders_batch root entries e⟩

/-- **C4.** In a batch run without cancellation, every folder of the list
is processed and gets exactly one recorded outcome, in order, whatever the
individual plan-building results and stage exit codes are: one unit's
failure never prevents the remaining units from starting. -/
theorem c4_partial_failure_isolation (units : List Entry) (dtmPath : String)
    (outRoot : List String) (uenv : Nat → ScriptEnv) :
    (run_processing units dtmPath outRoot uenv Cancel.never).map Prod.fst
      = units.map Entry.name :=
  runUnitsFrom_never_names dtmPath outRoot uenv units 0

/-- **C5.** When the cancellation flag is set while unit `k` runs stage `s`
of its script, the batch records outcomes exactly for units `0 .. k` (no
unit after `k` starts, and completed units keep their outcomes), no stage
after `s` of unit `k` starts, and no stage of any unit after `k` starts. -/
theorem c5_cancellation (units : List Entry) (dtmPath : String)
    (outRoot : List String) (uenv : Nat → ScriptEnv) (k s : Nat)
    (hs : s < 7) :
    ((run_processing units dtmPath outRoot uenv (Cancel.during k s)).map
        Prod.fst = (units.take (k + 1)).map Entry.name) ∧
    (∀ t, s < t →
      t ∉ unit_stages_started units dtmPath outRoot uenv
        (Cancel.during k s) k) ∧
    (∀ j, k < j →
      unit_stages_started units dtmPath outRoot uenv
        (Cancel.during k s) j = []) := by
  refine ⟨?_, ?_, ?_⟩
  · have h := runUnitsFrom_during_names dtmPath outRoot uenv k s units 0
      (Nat.zero_le k)
    simpa [run_processing] using h
  · intro t ht
    unfold unit_stages_started
    by_cases hk : k < units.length
    · rw [dif_pos hk]
      cases hcs : create_shell_script (units.get ⟨k, hk⟩) dtmPath outRoot with
      | error e => simp
      | ok p =>
          have hrange := execScript_cancel_started p (uenv k) s hs
          simp [hrange, List.mem_range]
          omega
    · simp [hk]
  · intro j hj
    unfold unit_stages_started
    by_cases hjlen : j < units.length
    · rw [dif_pos hjlen]
      cases hcs : create_shell_script (units.get ⟨j, hjlen⟩) dtmPath outRoot with
      | error e => rfl
      | ok p => simp [hj]
    · simp [hjlen]

/-- **C5, witness.** Concrete instance: two qualifying units, cancellation
during unit 0's stage 1. -/
theorem c5_cancellation_witness :
    1 < 7 ∧
    (((run_processing [folderA, folderB] "d.tif" ["out"]
          (fun _ => failEnv) (Cancel.during 0 1)).map Prod.fst
        = (([folderA, folderB].take (0 + 1)).map Entry.name)) ∧
      (∀ t, 1 < t →
        t ∉ unit_stages_started [folderA, folderB] "d.tif" ["out"]
          (fun _ => failEnv) (Cancel.during 0 1) 0) ∧
      (∀ j, 0 < j →
        unit_stages_started [folderA, folderB] "d.tif" ["out"]
          (fun _ => failEnv) (Cancel.during 0 1) j = [])) :=
  ⟨by decide,
    c5_cancellation [folderA, folderB] "d.tif" ["out"] (fun _ => failEnv)
      0 1 (by decide)⟩

/-- **C6, counterexample.** The locator applies no sort: when the
operating system enumerates the qualifying subfolders as `B` then `A`, the
processing list is `[B, A]`, which is not sorted by name — repeated runs
keep whatever enumeration order `iterdir` yields. -/
theorem c6_counterexample :
    ((get_processing_folders true true rootEntry [folderB, folderA]).map
        Entry.name = ["B", "A"]) ∧
    ¬ List.Pairwise (fun a b => nameLe a b = true)
        ((get_processing_folders true true rootEntry
          [folderB, folderA]).map Entry.name) :=
  ⟨by decide, by decide⟩

/-- **C6, amended.** The locator returns the qualifying subdirectories in
the enumeration order of `iterdir` — a subsequence of the listing, with
exactly the qualifying entries kept, no sorting applied. In particular,
when the enumeration yields qualifying `A`, non-qualifying `C` (missing
footprint) and qualifying `B` in that order, the result is `[A, B]` and
`C` is skipped without error. -/
theorem c6_enumeration_order (root : Entry) (entries : List Entry) :
    List.Sublist (get_processing_folders true true root entries) entries ∧
    (∀ e, e ∈ get_processing_folders true true root entries ↔
      e ∈ entries ∧ e.isDir = true ∧ has_required_files e.files = true) ∧
    ((get_processing_folders true true rootEntry
        [folderA, folderC, folderB]).map Entry.name = ["A", "B"]) := by
  refine ⟨?_, fun e => mem_get_processing_folders_batch root entries e,
    by decide⟩
  simp only [get_processing_folders, Bool.not_true, if_true, if_false,
    Bool.false_eq_true]
  exact List.filter_sublist entries

/-- **C7, counterexample.** The claim says the final output directory
`out/A` is created on disk before plan building returns — but
`create_shell_script` performs no directory creation at all: its only
filesystem operations are the three read-only globs, and no `mkdir` of
`out/A` (or of anything else) is among them. -/
theorem c7_counterexample :
    FsOp.mkdirOp ["out", "A"] ∉ create_shell_script_fsOps folderA ∧
      (create_shell_script_fsOps folderA).all isReadOnlyOp = true :=
  ⟨by decide, by decide⟩

/-- **C7, amended.** Building a plan invokes no external program and
writes nothing to disk — every filesystem operation it performs is a
read-only glob. The working directories and the final output directory
`<outputRoot>/<unitName>` are created when the generated script executes:
the seven `mkdir -p` commands all run before the first stage command, so
even a run cut off at stage 0 has already created all of them. -/
theorem c7_plan_building_pure (folder : Entry) (p : ScriptParams)
    (env : ScriptEnv) :
    (create_shell_script_fsOps folder).all isReadOnlyOp = true ∧
      (execScript p env (some 0)).dirsMade =
        stageDirNames.map (tempDir p.subgrid) ++
          [p.outputPath ++ [p.subgrid]] ∧
      (execScript p env (some 0)).started = [0] :=
  ⟨rfl, rfl, rfl⟩

/-- **C8.** Two work units with distinct names share no path: the working
directories `temp/<unitName>/{separate,decimate,translate,split,elevate,
citygml}`, the output directory `<outputRoot>/<unitName>` and the final
artifact `<outputRoot>/<unitName>/<unitName>.gml` of one unit never
coincide with any of the other's, provided the chosen output root does not
itself sit at the top of the `temp` working tree. -/
theorem c8_no_collision (outRoot : List String) (n₁ n₂ : String)
    (hne : n₁ ≠ n₂) (hroot : outRoot.head? ≠ some "temp") :
    ∀ q ∈ unitPaths outRoot n₁, q ∉ unitPaths outRoot n₂ := by
  intro q hq₁ hq₂
  simp only [unitPaths, List.mem_cons, List.mem_singleton,
    List.not_mem_nil, or_false] at hq₁ hq₂
  rcases hq₁ with rfl | rfl | rfl | rfl | rfl | rfl | rfl | rfl <;>
    rcases hq₂ with h | h | h | h | h | h | h | h <;>
    first
      | exact tempDir_ne_outDir outRoot hroot _ _ _ h
      | exact tempDir_ne_outFile outRoot hroot _ _ _ _ h
      | exact tempDir_ne_outDir outRoot hroot _ _ _ h.symm
      | exact tempDir_ne_outFile outRoot hroot _ _ _ _ h.symm
      | simp_all [tempDir]

/-- **C8, witness.** Concrete instance: units `A` and `B` with output root
`out`. -/
theorem c8_no_collision_witness :
    "A" ≠ "B" ∧ (["out"] : List String).head? ≠ some "temp" ∧
      ∀ q ∈ unitPaths ["out"] "A", q ∉ unitPaths ["out"] "B" :=
  ⟨by decide, by decide,
    c8_no_collision ["out"] "A" "B" (by decide) (by decide)⟩

/-- **C9.** The decimation tool exits with code 1 exactly when its input
directory does not exist or the recursive search finds no file whose
lower-cased name ends in `.obj`; in every other case it exits 0, whatever
`process_obj_file` returns on the individual files — per-file failures
only lower the printed success count, never the exit code. -/
theorem c9_decimate_exit_code (inputDirExists : Bool) (files : List String)
    (processOk : String → Bool) :
    ((decimate_main inputDirExists files processOk).exitCode = 1 ↔
      inputDirExists = false ∨ find_obj_files files = []) ∧
    ((decimate_main inputDirExists files processOk).exitCode = 1 ∨
      (decimate_main inputDirExists files processOk).exitCode = 0) ∧
    (find_obj_files files = [] ↔
      ∀ f ∈ files, ¬ strEndsWith (strToLower f) ".obj" = true) := by
  refine ⟨?_, ?_, find_obj_files_eq_nil files⟩ <;>
    cases inputDirExists with
    | false => simp [decimate_main]
    | true =>
        by_cases hobj : find_obj_files files = [] <;>
          simp [decimate_main, List.isEmpty_iff, hobj]

/-- **C10.** Every folder the locator returns qualifies, so plan building
for it never takes the missing-required-files error branch (the model reads
the same directory content at discovery and at plan building, matching the
claim's unchanged-filesystem assumption). -/
theorem c10_no_missing_files_error (dataFolderSet batchMode : Bool)
    (root : Entry) (entries : List Entry) (folder : Entry)
    (dtmPath : String) (outRoot : List String)
    (hmem : folder ∈
      get_processing_folders dataFolderSet batchMode root entries) :
    (create_shell_script folder dtmPath outRoot).isOk = true := by
  have hreq := has_required_of_mem dataFolderSet batchMode root entries
    folder hmem
  rw [has_required_files] at hreq
  simp only [Bool.and_eq_true, decide_eq_true_eq] at hreq
  obtain ⟨⟨hobj, hgeo⟩, htxt⟩ := hreq
  unfold create_shell_script
  cases h1 : globExt ".obj" folder.files with
  | nil => rw [h1] at hobj; simp at hobj
  | cons a as =>
      cases h2 : globExt ".geojson" folder.files with
      | nil => rw [h2] at hgeo; simp at hgeo
      | cons b bs =>
          cases h3 : globExt ".txt" folder.files with
          | nil => rw [h3] at htxt; simp at htxt
          | cons c cs => rfl

/-- **C10, witness.** Concrete instance: the qualifying folder `A` in a
batch listing. -/
theorem c10_no_missing_files_error_witness :
    folderA ∈ get_processing_folders true true rootEntry [folderA] ∧
      (create_shell_script folderA "d.tif" ["out"]).isOk = true :=
  ⟨by decide,
    c10_no_missing_files_error true true rootEntry [folderA] folderA
      "d.tif" ["out"] (by decide)⟩

/-- **C1, amended, witness.** Concrete instance of the amended statement
at unit `A` with a failing stage 0. -/
theorem c1_stages_always_run_witness :
    (execScript paramsA failEnv none).started = [0, 1, 2, 3, 4, 5, 6] ∧
      (execScript paramsA failEnv none).lastExit = 0 :=
  c1_stages_always_run paramsA failEnv

/-- **C2, amended, witness.** Concrete instance at unit `A` with the
one-line coordinate file and, for the plan-building disjunct, the
non-qualifying folder `C`. -/
theorem c2_coordinate_extraction_witness :
    (execScript paramsA oneLineEnv (some 0)).varX
        = stripCR (sedLine 1 oneLineEnv.txtLines) ∧
      (execScript paramsA oneLineEnv (some 0)).varY
        = stripCR (sedLine 2 oneLineEnv.txtLines) ∧
      (execScript paramsA oneLineEnv none).varX
        = stripCR (sedLine 1 oneLineEnv.txtLines) ∧
      (execScript paramsA oneLineEnv none).varY
        = stripCR (sedLine 2 oneLineEnv.txtLines) ∧
      ((create_shell_script folderC "d.tif" ["out"]).isOk = true ∨
        create_shell_script folderC "d.tif" ["out"] =
          Except.error "Missing required files") :=
  c2_coordinate_extraction paramsA oneLineEnv folderC "d.tif" ["out"]

/-- **C3, witness.** Concrete instance at the qualifying folder `A`. -/
theorem c3_qualification_witness :
    (has_required_files qualFiles = true ↔
      1 ≤ countMesh qualFiles ∧ 1 ≤ countFootprint qualFiles ∧
        1 ≤ countText qualFiles) ∧
    (folderA ∈ get_processing_folders true true rootEntry [folderA] ↔
      folderA ∈ [folderA] ∧ folderA.isDir = true ∧
        has_required_files folderA.files = true) :=
  c3_qualification qualFiles rootEntry [folderA] folderA

/-- **C4, witness.** Concrete instance: a batch of the qualifying `A` and
the non-qualifying `C` (whose plan building fails), with stage 0 failing,
still records one outcome per unit. -/
theorem c4_partial_failure_isolation_witness :
    (run_processing [folderA, folderC] "d.tif" ["out"] (fun _ => failEnv)
        Cancel.never).map Prod.fst = [folderA, folderC].map Entry.name :=
  c4_partial_failure_isolation [folderA, folderC] "d.tif" ["out"]
    (fun _ => failEnv)

/-- **C6, amended, witness.** Concrete instance at the listing
`[A, C, B]`. -/
theorem c6_enumeration_order_witness :
    List.Sublist (get_processing_folders true true rootEntry
        [folderA, folderC, folderB]) [folderA, folderC, folderB] ∧
    (∀ e, e ∈ get_processing_folders true true rootEntry
        [folderA, folderC, folderB] ↔
      e ∈ [folderA, folderC, folderB] ∧ e.isDir = true ∧
        has_required_files e.files = true) ∧
    ((get_processing_folders true true rootEntry
        [folderA, folderC, folderB]).map Entry.name = ["A", "B"]) :=
  c6_enumeration_order rootEntry [folderA, folderC, folderB]

/-- **C7, amended, witness.** Concrete instance at unit `A`. -/
theorem c7_plan_building_pure_witness :
    (create_shell_script_fsOps folderA).all isReadOnlyOp = true ∧
      (execScript paramsA oneLineEnv (some 0)).dirsMade =
        stageDirNames.map (tempDir paramsA.subgrid) ++
          [paramsA.outputPath ++ [paramsA.subgrid]] ∧
      (execScript paramsA oneLineEnv (some 0)).started = [0] :=
  c7_plan_building_pure folderA paramsA oneLineEnv

/-- **C9, witness.** Concrete instance: an existing input directory with
one upper-cased OBJ file that fails to process. -/
theorem c9_decimate_exit_code_witness :
    ((decimate_main true ["x/B.OBJ", "a.txt"] (fun _ => false)).exitCode = 1
        ↔ true = false ∨ find_obj_files ["x/B.OBJ", "a.txt"] = []) ∧
    ((decimate_main true ["x/B.OBJ", "a.txt"] (fun _ => false)).exitCode = 1
        ∨ (decimate_main true ["x/B.OBJ", "a.txt"]
            (fun _ => false)).exitCode = 0) ∧
    (find_obj_files ["x/B.OBJ", "a.txt"] = [] ↔
      ∀ f ∈ ["x/B.OBJ", "a.txt"],
        ¬ strEndsWith (strToLower f) ".obj" = true) :=
  c9_decimate_exit_code true ["x/B.OBJ", "a.txt"] (fun _ => false)

end Converter
